import Mathlib

set_option maxRecDepth 8000
set_option linter.unnecessarySeqFocus false

/-
Shallow embedding of the capacity-constrained reservation logic of the
exam-grepp backend (`src/app/api/v1/user_reservation.py`,
`src/app/api/v1/exam_schedule.py`, the models in `src/app/models/` and the
schemas in `src/app/schemas/`).  Times are modelled as integer seconds,
Python ints as `Int`, and database rows as entries of lists held in a `DB`
record.  FastCRUD's `get` returns a plain copy of the row, so mutating the
returned value does not write the store; only an explicit `update` call
does.  Each endpoint is a pure function from its inputs and the store to
`Except ApiError (result × store)`; raising an HTTPException is modelled by
returning `.error`, which, matching a rolled-back transaction, yields no
new store.
-/

/-- `ReservationStatus` enum from `models/user_reservation.py`. -/
inductive ReservationStatus where
  | RESERVED
  | CONFIRMED
  | CANCELLED
  | DELETED
deriving DecidableEq

/-- Modelled from the spec: the `ExamScheduleStatus` enum is imported by the
API modules from `models/exam_schedule.py`, but its definition is absent from
the provided copy of that file; the spec (§3) and the literal member accesses
in `schemas/exam_schedule.py` and the API modules fix the value set
{AVAILABLE, FULLY_BOOKED, CANCELLED, DELETED}. -/
inductive ExamScheduleStatus where
  | AVAILABLE
  | FULLY_BOOKED
  | CANCELLED
  | DELETED
deriving DecidableEq

/-- The `ExamSchedule` row (`models/exam_schedule.py`), restricted to the
fields the verified endpoints read or write.  Descriptive fields other than
`title` and the timestamp columns are not referenced by the booking logic
and are omitted.  The `status` column, like `ExamScheduleStatus`, is read
and written by the API code but missing from the provided model file. -/
structure ExamSchedule where
  id : Nat
  title : String
  start_at : Int
  end_at : Int
  max_users : Int
  reserve_count : Int
  confirm_count : Int
  status : ExamScheduleStatus
  is_deleted : Bool
deriving DecidableEq

/-- The `UserReservation` row (`models/user_reservation.py`), restricted to
the fields the verified endpoints read or write. -/
structure UserReservation where
  id : Nat
  user_id : Nat
  exam_schedule_id : Nat
  status : ReservationStatus
deriving DecidableEq

/-- The `UserReservationCreate` request schema
(`schemas/user_reservation.py`): `user_id`, `exam_schedule_id` and a
`status` field defaulting to RESERVED. -/
structure UserReservationCreate where
  user_id : Nat
  exam_schedule_id : Nat
  status : ReservationStatus := ReservationStatus.RESERVED
deriving DecidableEq

/-- The `ExamScheduleUpdate` patch schema (`schemas/exam_schedule.py`):
optional `title`, `start_at`, `end_at` and `status`; `none` models an unset
field (FastCRUD updates with `exclude_unset`).  The schema has no
`reserve_count`, `confirm_count` or `max_users` fields. -/
structure ExamScheduleUpdate where
  title : Option String := none
  start_at : Option Int := none
  end_at : Option Int := none
  status : Option ExamScheduleStatus := none
deriving DecidableEq

/-- The persistent store: the `exam_schedule` and `user_reservation` tables
plus the autoincrement counter for reservation ids. -/
structure DB where
  schedules : List ExamSchedule
  reservations : List UserReservation
  nextReservationId : Nat
deriving DecidableEq

/-- Typed errors.  `notFound` models `HTTPException(404, ...)` /
`NotFoundException`, `badRequest` models `HTTPException(400, ...)` /
`BadRequestException`, and `duplicateValue` models the
`DuplicateValueException` of the error taxonomy (raised by the
exam-schedule write endpoint; its class definition lives in
`core/exceptions/http_exceptions.py`, which is not among the provided
sources). -/
inductive ApiError where
  | notFound (detail : String)
  | badRequest (detail : String)
  | duplicateValue (detail : String)
deriving DecidableEq

/-- `str(e)` of a raised HTTPException: `"{status_code}: {detail}"`. -/
def strOfError : ApiError → String
  | ApiError.notFound d => "404: " ++ d
  | ApiError.badRequest d => "400: " ++ d
  | ApiError.duplicateValue d => "409: " ++ d

/-- The blanket `except Exception as e: raise HTTPException(400, str(e))`
wrapped around the whole body of `create_user_reservation`: every error the
body raises, whatever its own status code, is re-raised as a 400 whose
detail is the string form of the original exception. -/
def wrapHandler {β : Type} (x : Except ApiError β) : Except ApiError β :=
  match x with
  | Except.ok v => Except.ok v
  | Except.error e => Except.error (ApiError.badRequest (strOfError e))

/-- `timedelta(days=3)` in seconds. -/
def threeDays : Int := 259200

/-- Body of the `try` block of `create_user_reservation`
(`api/v1/user_reservation.py` lines 35-55): look the schedule up by id
(no `is_deleted` filter), reject a duplicate (user, event) reservation with
a 400, reject a request inside the 3-day booking window, reject a schedule
whose confirmed count has reached `max_users`, then insert the reservation.
The handler increments `reserve_count` only on the dict returned by
`crud_exam_schedule.get` and never issues a `crud_exam_schedule.update`, so
the stored schedule row is left unchanged. -/
def create_user_reservation_inner (now : Int) (currentUserId : Nat)
    (reservation_in : UserReservationCreate) (db : DB) :
    Except ApiError (UserReservation × DB) :=
  match db.schedules.find? (fun s => s.id == reservation_in.exam_schedule_id) with
  | none => Except.error (ApiError.notFound "ExamSchedule not found")
  | some exam_schedule =>
    match db.reservations.find?
        (fun r => r.user_id == currentUserId && r.exam_schedule_id == exam_schedule.id) with
    | some _ =>
        Except.error (ApiError.badRequest "User already has a reservation for this exam schedule")
    | none =>
      if now ≥ exam_schedule.start_at - threeDays then
        Except.error
          (ApiError.badRequest "Reservations can only be made up to 3 days before the exam starts.")
      else if exam_schedule.confirm_count ≥ exam_schedule.max_users then
        Except.error (ApiError.badRequest "Maximum number of confirmed reservations reached")
      else
        let r : UserReservation :=
          { id := db.nextReservationId
            user_id := currentUserId
            exam_schedule_id := exam_schedule.id
            status := reservation_in.status }
        Except.ok (r,
          { db with
              reservations := db.reservations ++ [r]
              nextReservationId := db.nextReservationId + 1 })

/-- `create_user_reservation` endpoint: the `try` body under the blanket
exception handler. -/
def create_user_reservation (now : Int) (currentUserId : Nat)
    (reservation_in : UserReservationCreate) (db : DB) :
    Except ApiError (UserReservation × DB) :=
  wrapHandler (create_user_reservation_inner now currentUserId reservation_in db)

/-- The if/elif chain of `update_user_reservation_status`
(`api/v1/user_reservation.py` lines 76-97) applied to the fetched schedule
row.  `.ok none` is the `return db_reservation` early-exit branch, which in
the source can only be reached when the reservation status matches none of
the four enum members. -/
def transitionStep (rs st : ReservationStatus) (es : ExamSchedule) :
    Except ApiError (Option ExamSchedule) :=
  if rs = ReservationStatus.RESERVED then
    if st = ReservationStatus.CONFIRMED then
      if es.confirm_count ≥ es.max_users then
        Except.error (ApiError.badRequest "Maximum number of confirmed reservations reached")
      else
        Except.ok (some { es with
          confirm_count := es.confirm_count + 1
          reserve_count := es.reserve_count - 1 })
    else if st = ReservationStatus.CANCELLED ∨ st = ReservationStatus.DELETED then
      Except.ok (some { es with reserve_count := es.reserve_count - 1 })
    else
      Except.ok (some es)
  else if rs = ReservationStatus.CANCELLED ∨ rs = ReservationStatus.DELETED then
    if st = ReservationStatus.CONFIRMED then
      if es.confirm_count ≥ es.max_users then
        Except.error (ApiError.badRequest "Maximum number of confirmed reservations reached")
      else
        Except.ok (some { es with confirm_count := es.confirm_count + 1 })
    else if st = ReservationStatus.RESERVED then
      Except.ok (some { es with reserve_count := es.reserve_count + 1 })
    else
      Except.ok (some es)
  else if rs = ReservationStatus.CONFIRMED then
    if st = ReservationStatus.CANCELLED ∨ st = ReservationStatus.DELETED then
      Except.ok (some { es with confirm_count := es.confirm_count - 1 })
    else if st = ReservationStatus.RESERVED then
      Except.ok (some { es with reserve_count := es.reserve_count + 1 })
    else
      Except.ok (some es)
  else if rs = st then
    Except.ok none
  else
    Except.ok (some es)

/-- Lines 99-103: both counters are floored at zero after the delta. -/
def clampCounters (es : ExamSchedule) : ExamSchedule :=
  let es2 := { es with reserve_count := if es.reserve_count < 0 then 0 else es.reserve_count }
  { es2 with confirm_count := if es2.confirm_count < 0 then 0 else es2.confirm_count }

/-- Lines 107-111: set FULLY_BOOKED when the confirmed count has reached
`max_users`, and flip a FULLY_BOOKED schedule back to AVAILABLE when it has
not. -/
def deriveStatus (es : ExamSchedule) : ExamSchedule :=
  let es4 :=
    if es.confirm_count ≥ es.max_users then
      { es with status := ExamScheduleStatus.FULLY_BOOKED }
    else es
  if es4.status = ExamScheduleStatus.FULLY_BOOKED ∧ es4.confirm_count < es4.max_users then
    { es4 with status := ExamScheduleStatus.AVAILABLE }
  else es4

/-- Lines 114-115: `crud_exam_schedule.update` and
`crud_user_reservation.update` by id — every row whose id matches is
overwritten. -/
def writeBack (db : DB) (eid : Nat) (es : ExamSchedule) (rid : Nat)
    (r : UserReservation) : DB :=
  { db with
      schedules := db.schedules.map (fun s => if s.id == eid then es else s)
      reservations := db.reservations.map (fun x => if x.id == rid then r else x) }

/-- `update_user_reservation_status` endpoint
(`api/v1/user_reservation.py` lines 59-117): fetch the reservation by id,
fetch the owning schedule filtered by `status=AVAILABLE`, run the
transition chain, clamp the counters, set the reservation status, derive
the schedule status, and persist both rows. -/
def update_user_reservation_status (reservation_id : Nat)
    (st : ReservationStatus) (db : DB) : Except ApiError (UserReservation × DB) :=
  match db.reservations.find? (fun x => x.id == reservation_id) with
  | none => Except.error (ApiError.notFound "UserReservation not found")
  | some db_reservation =>
    match db.schedules.find?
        (fun s => s.id == db_reservation.exam_schedule_id &&
          s.status == ExamScheduleStatus.AVAILABLE) with
    | none => Except.error (ApiError.notFound "ExamSchedule AVAILABLE not found")
    | some exam_schedule =>
      match transitionStep db_reservation.status st exam_schedule with
      | Except.error e => Except.error e
      | Except.ok none => Except.ok (db_reservation, db)
      | Except.ok (some es1) =>
        let es' := deriveStatus (clampCounters es1)
        let r' := { db_reservation with status := st }
        Except.ok (r', writeBack db exam_schedule.id es' db_reservation.id r')

/-- Application of an `ExamScheduleUpdate` payload to a stored schedule row:
each field that the payload sets overwrites the corresponding column; the
payload schema carries no counter fields, so `reserve_count`,
`confirm_count` and `max_users` are copied through. -/
def applyExamScheduleUpdate (es : ExamSchedule) (v : ExamScheduleUpdate) :
    ExamSchedule :=
  { es with
      title := v.title.getD es.title
      start_at := v.start_at.getD es.start_at
      end_at := v.end_at.getD es.end_at
      status := v.status.getD es.status }

/-- `patch_exam_schedule` endpoint (`api/v1/exam_schedule.py` lines
116-137), restricted to its storage effect: fetch the schedule by id with
`is_deleted=False`, 404 when absent, otherwise apply the payload via
`crud_exam_schedule.update`.  The current-user authorization checks belong
to the out-of-scope auth collaborator and are not modelled. -/
def patch_exam_schedule (id : Nat) (values : ExamScheduleUpdate) (db : DB) :
    Except ApiError DB :=
  match db.schedules.find? (fun s => s.id == id && !s.is_deleted) with
  | none => Except.error (ApiError.notFound "exam_schedule not found")
  | some _ =>
    Except.ok { db with
      schedules := db.schedules.map
        (fun s => if s.id == id then applyExamScheduleUpdate s values else s) }

/-- Transition table of the spec (§4.2), as the claim enumerates it:
`some (Δreserve, Δconfirm)` for the (current, requested) pairs the table
lists, `none` for the pairs it does not (CANCELLED↔DELETED cross
transitions). -/
def specDelta : ReservationStatus → ReservationStatus → Option (Int × Int)
  | ReservationStatus.RESERVED, ReservationStatus.CONFIRMED => some (-1, 1)
  | ReservationStatus.RESERVED, ReservationStatus.CANCELLED => some (-1, 0)
  | ReservationStatus.RESERVED, ReservationStatus.DELETED => some (-1, 0)
  | ReservationStatus.CANCELLED, ReservationStatus.CONFIRMED => some (0, 1)
  | ReservationStatus.DELETED, ReservationStatus.CONFIRMED => some (0, 1)
  | ReservationStatus.CANCELLED, ReservationStatus.RESERVED => some (1, 0)
  | ReservationStatus.DELETED, ReservationStatus.RESERVED => some (1, 0)
  | ReservationStatus.CONFIRMED, ReservationStatus.CANCELLED => some (0, -1)
  | ReservationStatus.CONFIRMED, ReservationStatus.DELETED => some (0, -1)
  | ReservationStatus.CONFIRMED, ReservationStatus.RESERVED => some (1, 0)
  | a, b => if a = b then some (0, 0) else none

/-- Capacity-guard column of the spec's transition table: transitions into
CONFIRMED from a different status are guarded by
`confirm_count < max_users`. -/
def specGuarded (a b : ReservationStatus) : Bool :=
  b == ReservationStatus.CONFIRMED && a != ReservationStatus.CONFIRMED

def c2wEs : ExamSchedule :=
  { id := 1, title := "exam", start_at := 1000000, end_at := 1003600,
    max_users := 5, reserve_count := 3, confirm_count := 1,
    status := ExamScheduleStatus.AVAILABLE, is_deleted := false }

def c2wR : UserReservation :=
  { id := 1, user_id := 7, exam_schedule_id := 1,
    status := ReservationStatus.RESERVED }

def c2wDb : DB :=
  { schedules := [c2wEs], reservations := [c2wR], nextReservationId := 2 }

def c2wEsAfter : ExamSchedule :=
  { id := 1, title := "exam", start_at := 1000000, end_at := 1003600,
    max_users := 5, reserve_count := 2, confirm_count := 2,
    status := ExamScheduleStatus.AVAILABLE, is_deleted := false }

def c2wRAfter : UserReservation :=
  { id := 1, user_id := 7, exam_schedule_id := 1,
    status := ReservationStatus.CONFIRMED }

def c2wOut : UserReservation × DB :=
  (c2wRAfter,
   { schedules := [c2wEsAfter], reservations := [c2wRAfter],
     nextReservationId := 2 })

def c2xEs : ExamSchedule :=
  { id := 1, title := "exam", start_at := 1000000, end_at := 1003600,
    max_users := 5, reserve_count := 0, confirm_count := 0,
    status := ExamScheduleStatus.AVAILABLE, is_deleted := false }

def c2xR : UserReservation :=
  { id := 1, user_id := 7, exam_schedule_id := 1,
    status := ReservationStatus.RESERVED }

def c2xDb : DB :=
  { schedules := [c2xEs], reservations := [c2xR], nextReservationId := 2 }

def isDuplicateValueError : Except ApiError (UserReservation × DB) → Bool
  | Except.error (ApiError.duplicateValue _) => true
  | _ => false

def c1Es : ExamSchedule :=
  { id := 1, title := "exam", start_at := 1000000, end_at := 1003600,
    max_users := 10, reserve_count := 0, confirm_count := 0,
    status := ExamScheduleStatus.AVAILABLE, is_deleted := false }

def c1Db : DB := { schedules := [c1Es], reservations := [], nextReservationId := 1 }

def c1Pay : UserReservationCreate := { user_id := 0, exam_schedule_id := 1 }

def c3xEs : ExamSchedule :=
  { id := 1, title := "exam", start_at := 1000000, end_at := 1003600,
    max_users := 2, reserve_count := 0, confirm_count := 2,
    status := ExamScheduleStatus.AVAILABLE, is_deleted := false }

def c3xR : UserReservation :=
  { id := 1, user_id := 7, exam_schedule_id := 1,
    status := ReservationStatus.CONFIRMED }

def c3xDb : DB :=
  { schedules := [c3xEs], reservations := [c3xR], nextReservationId := 2 }

def c3wEs : ExamSchedule :=
  { id := 1, title := "exam", start_at := 1000000, end_at := 1003600,
    max_users := 2, reserve_count := 1, confirm_count := 2,
    status := ExamScheduleStatus.AVAILABLE, is_deleted := false }

def c3wR : UserReservation :=
  { id := 1, user_id := 7, exam_schedule_id := 1,
    status := ReservationStatus.RESERVED }

def c3wDb : DB :=
  { schedules := [c3wEs], reservations := [c3wR], nextReservationId := 2 }

def c5xEs : ExamSchedule :=
  { id := 1, title := "exam", start_at := 1000000, end_at := 1003600,
    max_users := 5, reserve_count := 0, confirm_count := 0,
    status := ExamScheduleStatus.AVAILABLE, is_deleted := false }

def c5xR : UserReservation :=
  { id := 1, user_id := 7, exam_schedule_id := 1,
    status := ReservationStatus.RESERVED }

def c5xDb : DB :=
  { schedules := [c5xEs], reservations := [c5xR], nextReservationId := 2 }

def c5wEs : ExamSchedule :=
  { id := 1, title := "exam", start_at := 1000000, end_at := 1003600,
    max_users := 5, reserve_count := 3, confirm_count := 1,
    status := ExamScheduleStatus.AVAILABLE, is_deleted := false }

def c5wR : UserReservation :=
  { id := 1, user_id := 7, exam_schedule_id := 1,
    status := ReservationStatus.RESERVED }

def c5wDb : DB :=
  { schedules := [c5wEs], reservations := [c5wR], nextReservationId := 2 }

def c5wEs1 : ExamSchedule :=
  { id := 1, title := "exam", start_at := 1000000, end_at := 1003600,
    max_users := 5, reserve_count := 2, confirm_count := 2,
    status := ExamScheduleStatus.AVAILABLE, is_deleted := false }

def c5wR1 : UserReservation :=
  { id := 1, user_id := 7, exam_schedule_id := 1,
    status := ReservationStatus.CONFIRMED }

def c5wDb1 : DB :=
  { schedules := [c5wEs1], reservations := [c5wR1], nextReservationId := 2 }

def c5wEs2 : ExamSchedule :=
  { id := 1, title := "exam", start_at := 1000000, end_at := 1003600,
    max_users := 5, reserve_count := 2, confirm_count := 1,
    status := ExamScheduleStatus.AVAILABLE, is_deleted := false }

def c5wR2 : UserReservation :=
  { id := 1, user_id := 7, exam_schedule_id := 1,
    status := ReservationStatus.CANCELLED }

def c5wDb2 : DB :=
  { schedules := [c5wEs2], reservations := [c5wR2], nextReservationId := 2 }

def c6Es : ExamSchedule :=
  { id := 1, title := "exam", start_at := 1000000, end_at := 1003600,
    max_users := 10, reserve_count := 0, confirm_count := 0,
    status := ExamScheduleStatus.AVAILABLE, is_deleted := false }

def c6Db : DB := { schedules := [c6Es], reservations := [], nextReservationId := 1 }

def c6Pay : UserReservationCreate := { user_id := 0, exam_schedule_id := 1 }

def c7Es : ExamSchedule :=
  { id := 1, title := "exam", start_at := 1000000, end_at := 1003600,
    max_users := 10, reserve_count := 1, confirm_count := 0,
    status := ExamScheduleStatus.AVAILABLE, is_deleted := false }

def c7R : UserReservation :=
  { id := 1, user_id := 7, exam_schedule_id := 1,
    status := ReservationStatus.CONFIRMED }

def c7Db : DB :=
  { schedules := [c7Es], reservations := [c7R], nextReservationId := 2 }

def c7Pay : UserReservationCreate := { user_id := 0, exam_schedule_id := 1 }

def c8Db : DB := { schedules := [], reservations := [], nextReservationId := 1 }

def c8Pay : UserReservationCreate := { user_id := 0, exam_schedule_id := 99 }

def c8DelEs : ExamSchedule :=
  { id := 5, title := "exam", start_at := 1000000, end_at := 1003600,
    max_users := 10, reserve_count := 0, confirm_count := 0,
    status := ExamScheduleStatus.AVAILABLE, is_deleted := true }

def c8DelDb : DB :=
  { schedules := [c8DelEs], reservations := [], nextReservationId := 1 }

def c8DelPay : UserReservationCreate := { user_id := 0, exam_schedule_id := 5 }

def c9xEs : ExamSchedule :=
  { id := 1, title := "exam", start_at := 1000000, end_at := 1003600,
    max_users := 10, reserve_count := 2, confirm_count := 1,
    status := ExamScheduleStatus.AVAILABLE, is_deleted := false }

def c9xDb : DB := { schedules := [c9xEs], reservations := [], nextReservationId := 1 }

def c9xPatch : ExamScheduleUpdate := { status := some ExamScheduleStatus.CANCELLED }

def c9wEs : ExamSchedule :=
  { id := 1, title := "exam", start_at := 1000000, end_at := 1003600,
    max_users := 10, reserve_count := 2, confirm_count := 1,
    status := ExamScheduleStatus.AVAILABLE, is_deleted := false }

def c9wEsAfter : ExamSchedule :=
  { id := 1, title := "new title", start_at := 1000000, end_at := 1003600,
    max_users := 10, reserve_count := 2, confirm_count := 1,
    status := ExamScheduleStatus.CANCELLED, is_deleted := false }

def c9wDb : DB := { schedules := [c9wEs], reservations := [], nextReservationId := 1 }

def c9wDbAfter : DB :=
  { schedules := [c9wEsAfter], reservations := [], nextReservationId := 1 }

def c9wPatch : ExamScheduleUpdate :=
  { title := some "new title", status := some ExamScheduleStatus.CANCELLED }

def c10Es : ExamSchedule :=
  { id := 1, title := "exam", start_at := 1000000, end_at := 1003600,
    max_users := 2, reserve_count := 0, confirm_count := 2,
    status := ExamScheduleStatus.FULLY_BOOKED, is_deleted := false }

def c10R : UserReservation :=
  { id := 1, user_id := 7, exam_schedule_id := 1,
    status := ReservationStatus.CONFIRMED }

def c10Db : DB :=
  { schedules := [c10Es], reservations := [c10R], nextReservationId := 2 }

/-- Replacing every `sel`-selected entry of a list by `v` makes `v` the
first entry satisfying `p`, provided `p` holds of `v`, fails off the
selection, and some entry is selected. -/
lemma find_replaceAll {α : Type} (sel p : α → Bool) (v : α)
    (hother : ∀ a, sel a = false → p a = false) (hv : p v = true) :
    ∀ l : List α, (∃ a ∈ l, sel a = true) →
      (l.map (fun a => if sel a then v else a)).find? p = some v := by
  intro l
  induction l with
  | nil => intro h; simp at h
  | cons hd tl ih =>
    intro hmem
    cases hsel : sel hd with
    | true => simp [List.find?, hsel, hv]
    | false =>
      have hp : p hd = false := hother hd hsel
      have htl : ∃ a ∈ tl, sel a = true := by
        rcases hmem with ⟨a, ha, hsa⟩
        rcases List.mem_cons.mp ha with rfl | hmem'
        · rw [hsel] at hsa; cases hsa
        · exact ⟨a, hmem', hsa⟩
      simp [List.find?, hsel, hp, ih htl]

/-- A successful transition step only rewrites the two counters. -/
lemma transitionStep_frame {rs st : ReservationStatus} {es es1 : ExamSchedule}
    (h : transitionStep rs st es = Except.ok (some es1)) :
    es1.id = es.id ∧ es1.status = es.status ∧ es1.max_users = es.max_users ∧
      es1.title = es.title ∧ es1.start_at = es.start_at ∧ es1.end_at = es.end_at ∧
      es1.is_deleted = es.is_deleted := by
  cases rs <;> cases st <;> simp [transitionStep] at h <;>
    (try split at h) <;>
    (try simp at h) <;>
    (try subst h) <;>
    simp_all

/-- The early-return branch of the transition chain is dead code: one of the
four enum branches always fires. -/
lemma transitionStep_ne_none (rs st : ReservationStatus) (es : ExamSchedule) :
    transitionStep rs st es ≠ Except.ok none := by
  cases rs <;> cases st <;> simp [transitionStep] <;> (try split) <;> simp

/-- `clampCounters` floors each counter at zero and changes nothing else. -/
lemma clampCounters_spec (es : ExamSchedule) :
    (clampCounters es).reserve_count = max 0 es.reserve_count ∧
    (clampCounters es).confirm_count = max 0 es.confirm_count ∧
    (clampCounters es).id = es.id ∧ (clampCounters es).status = es.status ∧
    (clampCounters es).max_users = es.max_users := by
  refine ⟨?_, ?_, ?_, ?_, ?_⟩ <;> simp [clampCounters, max_def] <;>
    (try split) <;> (try split) <;> omega

/-- `deriveStatus` only rewrites the status field. -/
lemma deriveStatus_frame (es : ExamSchedule) :
    (deriveStatus es).confirm_count = es.confirm_count ∧
    (deriveStatus es).reserve_count = es.reserve_count ∧
    (deriveStatus es).max_users = es.max_users ∧
    (deriveStatus es).id = es.id := by
  simp only [deriveStatus]
  split <;> split <;> simp_all

/-- On a schedule whose stored status is AVAILABLE, the derived status is
FULLY_BOOKED exactly when the confirmed count has reached capacity. -/
lemma deriveStatus_iff (es : ExamSchedule)
    (h : es.status = ExamScheduleStatus.AVAILABLE) :
    ((deriveStatus es).status = ExamScheduleStatus.FULLY_BOOKED ↔
      es.max_users ≤ es.confirm_count) := by
  simp only [deriveStatus]
  split <;> split <;> simp_all <;> try omega

/-- A successful status-update call is exactly: the transition chain
produced a mutated schedule copy, which was clamped, derived, and written
back together with the restatused reservation. -/
lemma update_ok_elim {db : DB} {rid : Nat} {st : ReservationStatus}
    {r : UserReservation} {es : ExamSchedule} {out : UserReservation × DB}
    (h1 : db.reservations.find? (fun x => x.id == rid) = some r)
    (h2 : db.schedules.find? (fun s => s.id == r.exam_schedule_id &&
      s.status == ExamScheduleStatus.AVAILABLE) = some es)
    (hs : update_user_reservation_status rid st db = Except.ok out) :
    ∃ es1, transitionStep r.status st es = Except.ok (some es1) ∧
      out = ({ r with status := st },
        writeBack db es.id (deriveStatus (clampCounters es1)) r.id
          { r with status := st }) := by
  unfold update_user_reservation_status at hs
  rw [h1] at hs
  dsimp only at hs
  rw [h2] at hs
  dsimp only at hs
  cases hts : transitionStep r.status st es with
  | error e => rw [hts] at hs; cases hs
  | ok o =>
    cases o with
    | none => exact absurd hts (transitionStep_ne_none _ _ _)
    | some es1 =>
      rw [hts] at hs
      simp only [Except.ok.injEq] at hs
      exact ⟨es1, rfl, hs.symm⟩

/-- The facts recorded by a successful reservation lookup. -/
lemma reservation_found {db : DB} {rid : Nat} {r : UserReservation}
    (h1 : db.reservations.find? (fun x => x.id == rid) = some r) :
    r.id = rid ∧ r ∈ db.reservations := by
  have := List.find?_some h1
  simp at this
  exact ⟨this, List.mem_of_find?_eq_some h1⟩

/-- The facts recorded by a successful AVAILABLE-schedule lookup. -/
lemma schedule_found {db : DB} {eid : Nat} {es : ExamSchedule}
    (h2 : db.schedules.find? (fun s => s.id == eid &&
      s.status == ExamScheduleStatus.AVAILABLE) = some es) :
    es.id = eid ∧ es.status = ExamScheduleStatus.AVAILABLE ∧
      es ∈ db.schedules := by
  have := List.find?_some h2
  simp at this
  exact ⟨this.1, this.2, List.mem_of_find?_eq_some h2⟩

/-- A successful transition step realizes the spec table's delta on the
fetched copy, and a guarded step implies the capacity condition held. -/
lemma transitionStep_delta {rs st : ReservationStatus} {es es1 : ExamSchedule}
    {dr dc : Int}
    (hts : transitionStep rs st es = Except.ok (some es1))
    (hd : specDelta rs st = some (dr, dc)) :
    es1.reserve_count = es.reserve_count + dr ∧
    es1.confirm_count = es.confirm_count + dc ∧
    (specGuarded rs st = true → es.confirm_count < es.max_users) := by
  cases rs <;> cases st <;>
    simp [specDelta] at hd <;>
    simp [transitionStep] at hts <;>
    (try split at hts) <;>
    (try simp at hts) <;>
    (try subst hts) <;>
    (try obtain ⟨hdr, hdc⟩ := hd) <;>
    (try simp_all [specGuarded]) <;>
    omega

/-- After a successful status update, looking the owning schedule up by id
returns exactly the clamped-and-derived row that the call wrote back. -/
lemma update_persisted_schedule {db : DB} {rid : Nat} {st : ReservationStatus}
    {r : UserReservation} {es : ExamSchedule} {out : UserReservation × DB}
    (h1 : db.reservations.find? (fun x => x.id == rid) = some r)
    (h2 : db.schedules.find? (fun s => s.id == r.exam_schedule_id &&
      s.status == ExamScheduleStatus.AVAILABLE) = some es)
    (hs : update_user_reservation_status rid st db = Except.ok out) :
    ∃ es1, transitionStep r.status st es = Except.ok (some es1) ∧
      (out.2).schedules.find? (fun s => s.id == r.exam_schedule_id) =
        some (deriveStatus (clampCounters es1)) := by
  obtain ⟨es1, hts, hout⟩ := update_ok_elim h1 h2 hs
  obtain ⟨hid, hstat, hmem⟩ := schedule_found h2
  refine ⟨es1, hts, ?_⟩
  subst hout
  have hvid : (deriveStatus (clampCounters es1)).id = es.id := by
    rw [(deriveStatus_frame _).2.2.2, (clampCounters_spec _).2.2.1,
      (transitionStep_frame hts).1]
  exact find_replaceAll (fun s => s.id == es.id)
    (fun s => s.id == r.exam_schedule_id) (deriveStatus (clampCounters es1))
    (by intro a ha; simp at ha ⊢; rw [← hid]; exact ha)
    (by simp [hvid, hid])
    db.schedules ⟨es, hmem, by simp⟩

/-- C2 (amended): for every successful ChangeReservationStatus call on a
(current, requested) pair listed in the spec's transition table, the
persisted counters of the owning event equal the old counters plus the
table's deltas, floored at zero by the defensive clamp, and a guarded
transition into CONFIRMED implies `confirm_count < max_users` held. -/
theorem update_status_realizes_spec_table {db : DB} {rid : Nat}
    {st : ReservationStatus} {r : UserReservation} {es : ExamSchedule}
    {out : UserReservation × DB} {dr dc : Int}
    (h1 : db.reservations.find? (fun x => x.id == rid) = some r)
    (h2 : db.schedules.find? (fun s => s.id == r.exam_schedule_id &&
      s.status == ExamScheduleStatus.AVAILABLE) = some es)
    (hs : update_user_reservation_status rid st db = Except.ok out)
    (hd : specDelta r.status st = some (dr, dc)) :
    (specGuarded r.status st = true → es.confirm_count < es.max_users) ∧
    ∃ es', (out.2).schedules.find? (fun s => s.id == r.exam_schedule_id) =
        some es' ∧
      es'.reserve_count = max 0 (es.reserve_count + dr) ∧
      es'.confirm_count = max 0 (es.confirm_count + dc) := by
  obtain ⟨es1, hts, hfind⟩ := update_persisted_schedule h1 h2 hs
  obtain ⟨hdr, hdc, hg⟩ := transitionStep_delta hts hd
  refine ⟨hg, deriveStatus (clampCounters es1), hfind, ?_, ?_⟩
  · rw [(deriveStatus_frame _).2.1, (clampCounters_spec _).1, hdr]
  · rw [(deriveStatus_frame _).1, (clampCounters_spec _).2.1, hdc]

/-- C2 witness: the amended theorem applied to a concrete RESERVED →
CONFIRMED call on an event with `reserve_count = 3`, `confirm_count = 1`,
`max_users = 5`. -/
theorem update_status_realizes_spec_table_witness :
    (specGuarded ReservationStatus.RESERVED ReservationStatus.CONFIRMED = true →
      c2wEs.confirm_count < c2wEs.max_users) ∧
    ∃ es', (c2wOut.2).schedules.find?
        (fun s => s.id == c2wR.exam_schedule_id) = some es' ∧
      es'.reserve_count = max 0 (c2wEs.reserve_count + -1) ∧
      es'.confirm_count = max 0 (c2wEs.confirm_count + 1) :=
  @update_status_realizes_spec_table c2wDb 1 ReservationStatus.CONFIRMED
    c2wR c2wEs c2wOut (-1) 1 rfl rfl (by rfl) rfl

/-- C2 counterexample: a RESERVED → CANCELLED call on an event whose
`reserve_count` is already 0 succeeds, the spec table assigns it
Δreserve = −1, yet the persisted `reserve_count` is 0, not the old value
plus the delta: the zero clamp makes the literal claim false. -/
theorem update_status_delta_clamped_counterexample :
    (update_user_reservation_status 1 ReservationStatus.CANCELLED c2xDb).map
        (fun p => p.2.schedules.map (fun s => s.reserve_count)) =
      Except.ok [0] ∧
    specDelta ReservationStatus.RESERVED ReservationStatus.CANCELLED =
      some (-1, 0) ∧
    ¬ ((0 : Int) = c2xEs.reserve_count + -1) :=
  ⟨rfl, rfl, by decide⟩

/-- On an AVAILABLE schedule below capacity, the derived status stays
AVAILABLE. -/
lemma deriveStatus_available (es : ExamSchedule)
    (h : es.status = ExamScheduleStatus.AVAILABLE)
    (hc : es.confirm_count < es.max_users) :
    (deriveStatus es).status = ExamScheduleStatus.AVAILABLE := by
  simp only [deriveStatus]
  split <;> split <;> simp_all

/-- In a list where every `sel`-selected entry has been replaced by `v` and
`p` fails off the selection, `v` is the only value `find? p` can return. -/
lemma find_replaceAll_eq {α : Type} (sel p : α → Bool) (v : α)
    (hother : ∀ a, sel a = false → p a = false) :
    ∀ (l : List α) (x : α),
      (l.map (fun a => if sel a then v else a)).find? p = some x → x = v := by
  intro l
  induction l with
  | nil => intro x hx; simp at hx
  | cons hd tl ih =>
    intro x hx
    cases hsel : sel hd with
    | true =>
      simp only [List.map_cons, hsel, if_true] at hx
      cases hpv : p v with
      | true =>
        rw [List.find?_cons_of_pos _ (by simp [hpv])] at hx
        exact (Option.some.inj hx).symm
      | false =>
        rw [List.find?_cons_of_neg _ (by simp [hpv])] at hx
        exact ih x hx
    | false =>
      have hp : p hd = false := hother hd hsel
      simp only [List.map_cons, hsel, Bool.false_eq_true, if_false] at hx
      rw [List.find?_cons_of_neg _ (by simp [hp])] at hx
      exact ih x hx

/-- C3 (amended): a transition into CONFIRMED from any other reservation
status, on an AVAILABLE event whose confirmed count has reached capacity,
fails with the 400 capacity error; the error aborts the handler before any
write, so nothing is persisted. -/
theorem update_status_capacity_guard {db : DB} {rid : Nat}
    {r : UserReservation} {es : ExamSchedule}
    (h1 : db.reservations.find? (fun x => x.id == rid) = some r)
    (h2 : db.schedules.find? (fun s => s.id == r.exam_schedule_id &&
      s.status == ExamScheduleStatus.AVAILABLE) = some es)
    (hne : r.status ≠ ReservationStatus.CONFIRMED)
    (hfull : es.max_users ≤ es.confirm_count) :
    update_user_reservation_status rid ReservationStatus.CONFIRMED db =
      Except.error
        (ApiError.badRequest "Maximum number of confirmed reservations reached") := by
  unfold update_user_reservation_status
  rw [h1]
  dsimp only
  rw [h2]
  dsimp only
  cases hrs : r.status <;> simp_all [transitionStep]

/-- C10: any status-change call on a reservation whose owning event has no
AVAILABLE row fails with the 404 "ExamSchedule AVAILABLE not found"; the
error aborts the handler before any write. -/
theorem update_status_requires_available {db : DB} {rid : Nat}
    {st : ReservationStatus} {r : UserReservation}
    (h1 : db.reservations.find? (fun x => x.id == rid) = some r)
    (h2 : db.schedules.find? (fun s => s.id == r.exam_schedule_id &&
      s.status == ExamScheduleStatus.AVAILABLE) = none) :
    update_user_reservation_status rid st db =
      Except.error (ApiError.notFound "ExamSchedule AVAILABLE not found") := by
  unfold update_user_reservation_status
  rw [h1]
  dsimp only
  rw [h2]

/-- C4: after every successful status-change call, the persisted owning
event satisfies `status = FULLY_BOOKED ↔ confirm_count ≥ max_users`. -/
theorem update_status_derived_invariant {db : DB} {rid : Nat}
    {st : ReservationStatus} {r : UserReservation} {es : ExamSchedule}
    {out : UserReservation × DB}
    (h1 : db.reservations.find? (fun x => x.id == rid) = some r)
    (h2 : db.schedules.find? (fun s => s.id == r.exam_schedule_id &&
      s.status == ExamScheduleStatus.AVAILABLE) = some es)
    (hs : update_user_reservation_status rid st db = Except.ok out) :
    ∃ es', (out.2).schedules.find? (fun s => s.id == r.exam_schedule_id) =
        some es' ∧
      (es'.status = ExamScheduleStatus.FULLY_BOOKED ↔
        es'.max_users ≤ es'.confirm_count) := by
  obtain ⟨es1, hts, hfind⟩ := update_persisted_schedule h1 h2 hs
  refine ⟨_, hfind, ?_⟩
  have hstat : (clampCounters es1).status = ExamScheduleStatus.AVAILABLE := by
    rw [(clampCounters_spec _).2.2.2.1, (transitionStep_frame hts).2.1,
      (schedule_found h2).2.1]
  rw [(deriveStatus_frame _).2.2.1, (deriveStatus_frame _).1]
  exact deriveStatus_iff (clampCounters es1) hstat

/-- C5 (amended): performing RESERVED → CONFIRMED → CANCELLED on one
reservation of an AVAILABLE event with non-negative confirmed count and at
least one reserved seat restores `confirm_count` and leaves `reserve_count`
exactly one lower. -/
theorem confirm_cancel_net_effect {db : DB} {rid : Nat}
    {r r1 r2 : UserReservation} {es : ExamSchedule} {db1 db2 : DB}
    (h1 : db.reservations.find? (fun x => x.id == rid) = some r)
    (h2 : db.schedules.find? (fun s => s.id == r.exam_schedule_id &&
      s.status == ExamScheduleStatus.AVAILABLE) = some es)
    (hr : r.status = ReservationStatus.RESERVED)
    (hc0 : 0 ≤ es.confirm_count)
    (hrv : 1 ≤ es.reserve_count)
    (hs1 : update_user_reservation_status rid ReservationStatus.CONFIRMED db =
      Except.ok (r1, db1))
    (hs2 : update_user_reservation_status rid ReservationStatus.CANCELLED db1 =
      Except.ok (r2, db2)) :
    ∃ esf, db2.schedules.find? (fun s => s.id == r.exam_schedule_id) =
        some esf ∧
      esf.confirm_count = es.confirm_count ∧
      esf.reserve_count = es.reserve_count - 1 := by
  obtain ⟨es1, hts1, hout1⟩ := update_ok_elim h1 h2 hs1
  obtain ⟨hrid, hrmem⟩ := reservation_found h1
  obtain ⟨hid, hstat, hmem⟩ := schedule_found h2
  rw [Prod.mk.injEq] at hout1
  obtain ⟨hr1, hdb1⟩ := hout1
  rw [hr] at hts1
  by_cases hguard : es.max_users ≤ es.confirm_count
  · simp [transitionStep, hguard] at hts1
  · simp [transitionStep, hguard] at hts1
    subst hts1
    subst hr1
    subst hdb1
    set r1' : UserReservation :=
      { id := r.id, user_id := r.user_id,
        exam_schedule_id := r.exam_schedule_id,
        status := ReservationStatus.CONFIRMED } with hr1def
    set es1 : ExamSchedule :=
      { id := es.id, title := es.title, start_at := es.start_at,
        end_at := es.end_at, max_users := es.max_users,
        reserve_count := es.reserve_count - 1,
        confirm_count := es.confirm_count + 1, status := es.status,
        is_deleted := es.is_deleted } with hes1def
    set esA : ExamSchedule := deriveStatus (clampCounters es1) with hesAdef
    have hA_id : esA.id = es.id := by
      rw [hesAdef, (deriveStatus_frame _).2.2.2, (clampCounters_spec _).2.2.1]
    have hA_res : esA.reserve_count = es.reserve_count - 1 := by
      rw [hesAdef, (deriveStatus_frame _).2.1, (clampCounters_spec _).1]
      simp only [hes1def]
      omega
    have hA_conf : esA.confirm_count = es.confirm_count + 1 := by
      rw [hesAdef, (deriveStatus_frame _).1, (clampCounters_spec _).2.1]
      simp only [hes1def]
      omega
    have hfr1 : (writeBack db es.id esA r.id r1').reservations.find?
        (fun x => x.id == rid) = some r1' := by
      apply find_replaceAll (fun x => x.id == r.id) (fun x => x.id == rid) r1'
      · intro a ha
        simp at ha ⊢
        rw [← hrid]
        exact ha
      · simp [hr1def, hrid]
      · exact ⟨r, hrmem, by simp⟩
    unfold update_user_reservation_status at hs2
    rw [hfr1] at hs2
    dsimp only at hs2
    have hpe : r1'.exam_schedule_id = r.exam_schedule_id := by rw [hr1def]
    rw [hpe] at hs2
    cases hfs : (writeBack db es.id esA r.id r1').schedules.find?
        (fun s => s.id == r.exam_schedule_id &&
          s.status == ExamScheduleStatus.AVAILABLE) with
    | none => rw [hfs] at hs2; cases hs2
    | some x =>
      rw [hfs] at hs2
      dsimp only at hs2
      have hfs' := hfs
      simp only [writeBack] at hfs'
      have hxA : x = esA := by
        refine find_replaceAll_eq (fun s => s.id == es.id)
          (fun s => s.id == r.exam_schedule_id &&
            s.status == ExamScheduleStatus.AVAILABLE) esA ?_ db.schedules x hfs'
        intro a ha
        simp at ha ⊢
        intro hcontra
        rw [← hid] at hcontra
        exact absurd hcontra ha
      subst hxA
      have hts2 : transitionStep ReservationStatus.CONFIRMED
          ReservationStatus.CANCELLED esA =
          Except.ok (some { esA with confirm_count := esA.confirm_count - 1 }) := by
        simp [transitionStep]
      rw [hts2] at hs2
      dsimp only at hs2
      simp only [Except.ok.injEq, Prod.mk.injEq] at hs2
      obtain ⟨hr2, hdb2⟩ := hs2
      set es2 : ExamSchedule := { esA with confirm_count := esA.confirm_count - 1 }
        with hes2def
      set esf : ExamSchedule := deriveStatus (clampCounters es2) with hesfdef
      refine ⟨esf, ?_, ?_, ?_⟩
      · rw [← hdb2]
        simp only [writeBack]
        apply find_replaceAll (fun s => s.id == esA.id)
          (fun s => s.id == r.exam_schedule_id) esf
        · intro a ha
          simp at ha ⊢
          rw [← hid, ← hA_id]
          exact ha
        · have : esf.id = esA.id := by
            rw [hesfdef, (deriveStatus_frame _).2.2.2,
              (clampCounters_spec _).2.2.1, hes2def]
          simp [this, hA_id, hid]
        · refine ⟨esA, ?_, by simp⟩
          have hm := List.mem_map_of_mem
            (fun s => if (s.id == es.id) = true then esA else s) hmem
          simpa using hm
      · rw [hesfdef, (deriveStatus_frame _).1, (clampCounters_spec _).2.1,
          hes2def]
        simp only
        omega
      · rw [hesfdef, (deriveStatus_frame _).2.1, (clampCounters_spec _).1,
          hes2def]
        simp only
        omega

/-- C1: evaluating `create_user_reservation` at a concrete available event
shows the call succeeds and creates a RESERVED reservation, yet the stored
event row still has `reserve_count = 0` afterwards: the handler increments
only the fetched copy and never writes the event row back, so the
increment is not persisted and a fortiori not atomic with the insert. -/
theorem create_reserve_count_not_persisted :
    (create_user_reservation 0 7 c1Pay c1Db).map
        (fun p => (p.1.status, p.2.schedules.map (fun s => s.reserve_count))) =
      Except.ok (ReservationStatus.RESERVED, [0]) ∧
    c1Es.reserve_count = 0 :=
  ⟨rfl, rfl⟩

/-- C3 counterexample: a CONFIRMED → CONFIRMED request on an AVAILABLE
event whose `confirm_count` equals `max_users` is a transition into
CONFIRMED at full capacity, yet the call succeeds instead of failing with
BadRequest, and it even changes the event status to FULLY_BOOKED. -/
theorem update_status_guard_counterexample :
    c3xEs.max_users ≤ c3xEs.confirm_count ∧
    (update_user_reservation_status 1 ReservationStatus.CONFIRMED c3xDb).map
        (fun p => p.2.schedules.map (fun s => s.status)) =
      Except.ok [ExamScheduleStatus.FULLY_BOOKED] ∧
    c3xEs.status = ExamScheduleStatus.AVAILABLE :=
  ⟨by decide, rfl, rfl⟩

/-- C3 witness: the amended guard theorem applied to a concrete RESERVED →
CONFIRMED request at full capacity. -/
theorem update_status_capacity_guard_witness :
    update_user_reservation_status 1 ReservationStatus.CONFIRMED c3wDb =
      Except.error
        (ApiError.badRequest "Maximum number of confirmed reservations reached") :=
  @update_status_capacity_guard c3wDb 1 c3wR c3wEs rfl rfl (by decide) (by decide)

/-- C4 witness: the derived-status invariant theorem applied to a concrete
successful RESERVED → CONFIRMED call. -/
theorem update_status_derived_invariant_witness :
    ∃ es', (c2wOut.2).schedules.find?
        (fun s => s.id == c2wR.exam_schedule_id) = some es' ∧
      (es'.status = ExamScheduleStatus.FULLY_BOOKED ↔
        es'.max_users ≤ es'.confirm_count) :=
  @update_status_derived_invariant c2wDb 1 ReservationStatus.CONFIRMED
    c2wR c2wEs c2wOut rfl rfl (by rfl)

/-- C5 counterexample: on an event whose `reserve_count` is already 0, the
RESERVED → CONFIRMED → CANCELLED sequence succeeds and restores
`confirm_count`, but the final `reserve_count` is 0, not the pre-sequence
value minus 1: the zero clamp absorbs the decrement. -/
theorem confirm_cancel_reserve_counterexample :
    ((do
      let p1 ← update_user_reservation_status 1 ReservationStatus.CONFIRMED c5xDb
      let p2 ← update_user_reservation_status 1 ReservationStatus.CANCELLED p1.2
      pure (p2.2.schedules.map (fun s => (s.reserve_count, s.confirm_count)))) :
        Except ApiError (List (Int × Int))) = Except.ok [(0, 0)] ∧
    ¬ ((0 : Int) = c5xEs.reserve_count - 1) :=
  ⟨rfl, by decide⟩

/-- C5 witness: the amended round-trip theorem applied to a concrete event
with `reserve_count = 3`, `confirm_count = 1`, `max_users = 5`. -/
theorem confirm_cancel_net_effect_witness :
    ∃ esf, c5wDb2.schedules.find?
        (fun s => s.id == c5wR.exam_schedule_id) = some esf ∧
      esf.confirm_count = c5wEs.confirm_count ∧
      esf.reserve_count = c5wEs.reserve_count - 1 :=
  @confirm_cancel_net_effect c5wDb 1 c5wR c5wR1 c5wR2 c5wEs c5wDb1 c5wDb2
    rfl rfl rfl (by decide) (by decide) (by rfl) (by rfl)

/-- C6: with the event found, no duplicate reservation and free capacity, a
request at or after `start_at` minus 3 days is rejected with the
booking-window error (wrapped to a 400 by the blanket handler), and a
request strictly before that boundary succeeds. -/
theorem booking_window_boundary {db : DB} {uid : Nat}
    {pay : UserReservationCreate} {es : ExamSchedule} {now : Int}
    (h1 : db.schedules.find? (fun s => s.id == pay.exam_schedule_id) = some es)
    (h2 : db.reservations.find? (fun x => x.user_id == uid &&
      x.exam_schedule_id == es.id) = none)
    (h3 : es.confirm_count < es.max_users) :
    (es.start_at - threeDays ≤ now →
      create_user_reservation now uid pay db =
        Except.error (ApiError.badRequest
          ("400: " ++ "Reservations can only be made up to 3 days before the exam starts."))) ∧
    (now < es.start_at - threeDays →
      ∃ resv db', create_user_reservation now uid pay db =
        Except.ok (resv, db')) := by
  unfold create_user_reservation create_user_reservation_inner
  rw [h1]
  dsimp only
  rw [h2]
  dsimp only
  constructor
  · intro hl
    rw [if_pos hl]
    rfl
  · intro hl
    rw [if_neg (not_le.mpr hl), if_neg (not_le.mpr h3)]
    exact ⟨_, _, rfl⟩

/-- C6 witness: with `start_at = 1000000` the boundary is 740800; the
boundary instant is rejected and one second earlier is accepted. -/
theorem booking_window_boundary_witness :
    (create_user_reservation 740800 7 c6Pay c6Db =
      Except.error (ApiError.badRequest
        ("400: " ++ "Reservations can only be made up to 3 days before the exam starts."))) ∧
    ∃ resv db', create_user_reservation 740799 7 c6Pay c6Db =
      Except.ok (resv, db') :=
  ⟨(@booking_window_boundary c6Db 7 c6Pay c6Es 740800 rfl rfl (by decide)).1
      (by decide),
   (@booking_window_boundary c6Db 7 c6Pay c6Es 740799 rfl rfl (by decide)).2
      (by decide)⟩

/-- C7 (amended): with the event found and an existing reservation for the
same (user, event) pair — whatever its status — the create call fails with
the 400 "User already has a reservation for this exam schedule" error, and
the error return means no reservation row is inserted. -/
theorem duplicate_reservation_rejected {db : DB} {uid : Nat}
    {pay : UserReservationCreate} {es : ExamSchedule} {r0 : UserReservation}
    {now : Int}
    (h1 : db.schedules.find? (fun s => s.id == pay.exam_schedule_id) = some es)
    (hdup : db.reservations.find? (fun x => x.user_id == uid &&
      x.exam_schedule_id == es.id) = some r0) :
    create_user_reservation now uid pay db =
      Except.error (ApiError.badRequest
        ("400: " ++ "User already has a reservation for this exam schedule")) := by
  unfold create_user_reservation create_user_reservation_inner
  rw [h1]
  dsimp only
  rw [hdup]
  rfl

/-- C7 counterexample: a second create for a (user, event) pair that
already has a CONFIRMED reservation fails, but with the plain 400
BadRequest above, not with a DuplicateValue error as the claim states. -/
theorem duplicate_reservation_error_type_counterexample :
    create_user_reservation 0 7 c7Pay c7Db =
      Except.error (ApiError.badRequest
        ("400: " ++ "User already has a reservation for this exam schedule")) ∧
    isDuplicateValueError (create_user_reservation 0 7 c7Pay c7Db) = false :=
  ⟨rfl, rfl⟩

/-- C7 witness: the amended duplicate-rejection theorem applied to the
concrete store above. -/
theorem duplicate_reservation_rejected_witness :
    create_user_reservation 0 7 c7Pay c7Db =
      Except.error (ApiError.badRequest
        ("400: " ++ "User already has a reservation for this exam schedule")) :=
  @duplicate_reservation_rejected c7Db 7 c7Pay c7Es c7R 0 rfl rfl

/-- C8: for a create call naming a non-existent event, the handler body
raises the 404 "ExamSchedule not found", but the blanket exception handler
re-raises it as a 400 BadRequest, so the caller receives BadRequest, not
NotFound; and a create call naming a soft-deleted event is not rejected at
all, because the schedule lookup does not filter on the deletion flag. -/
theorem create_missing_event_http_code :
    create_user_reservation_inner 0 7 c8Pay c8Db =
      Except.error (ApiError.notFound "ExamSchedule not found") ∧
    create_user_reservation 0 7 c8Pay c8Db =
      Except.error (ApiError.badRequest ("404: " ++ "ExamSchedule not found")) ∧
    ∃ resv db', create_user_reservation 0 7 c8DelPay c8DelDb =
      Except.ok (resv, db') :=
  ⟨rfl, rfl, _, _, rfl⟩

/-- C9 (amended): a successful patch leaves every stored event's
`reserve_count`, `confirm_count` and `max_users` unchanged — the patch
schema has no such fields — though it can rewrite `status`. -/
theorem patch_preserves_counters {db db' : DB} {id : Nat}
    {v : ExamScheduleUpdate}
    (h : patch_exam_schedule id v db = Except.ok db') :
    ∀ s' ∈ db'.schedules, ∃ s ∈ db.schedules, s'.id = s.id ∧
      s'.reserve_count = s.reserve_count ∧
      s'.confirm_count = s.confirm_count ∧
      s'.max_users = s.max_users := by
  unfold patch_exam_schedule at h
  cases hf : db.schedules.find? (fun s => s.id == id && !s.is_deleted) with
  | none => rw [hf] at h; cases h
  | some s0 =>
    rw [hf] at h
    dsimp only at h
    injection h with h
    intro s' hs'
    rw [← h] at hs'
    simp only [List.mem_map] at hs'
    obtain ⟨s, hsmem, hseq⟩ := hs'
    refine ⟨s, hsmem, ?_⟩
    by_cases hsel : (s.id == id) = true
    · rw [if_pos hsel] at hseq
      rw [← hseq]
      simp [applyExamScheduleUpdate]
    · rw [if_neg hsel] at hseq
      rw [← hseq]
      exact ⟨rfl, rfl, rfl, rfl⟩

/-- C9 counterexample: the patch schema carries a writable `status` field,
so a patch payload can rewrite the derived-status field directly: patching
with `status = CANCELLED` changes the stored AVAILABLE event to CANCELLED,
contradicting the claim that no patch payload can write that field. -/
theorem patch_writes_status_counterexample :
    (patch_exam_schedule 1 c9xPatch c9xDb).map
        (fun d => d.schedules.map (fun s => s.status)) =
      Except.ok [ExamScheduleStatus.CANCELLED] ∧
    c9xEs.status = ExamScheduleStatus.AVAILABLE :=
  ⟨rfl, rfl⟩

/-- C9 witness: the counter-frame theorem applied to a concrete patch that
rewrites title and status, instantiated at the patched row. -/
theorem patch_preserves_counters_witness :
    ∃ s ∈ c9wDb.schedules, c9wEsAfter.id = s.id ∧
      c9wEsAfter.reserve_count = s.reserve_count ∧
      c9wEsAfter.confirm_count = s.confirm_count ∧
      c9wEsAfter.max_users = s.max_users :=
  @patch_preserves_counters c9wDb c9wDbAfter 1 c9wPatch rfl c9wEsAfter
    (by decide)

/-- C10 witness: on a FULLY_BOOKED event, even cancelling a CONFIRMED
reservation fails with the 404. -/
theorem update_status_requires_available_witness :
    update_user_reservation_status 1 ReservationStatus.CANCELLED c10Db =
      Except.error (ApiError.notFound "ExamSchedule AVAILABLE not found") :=
  @update_status_requires_available c10Db 1 ReservationStatus.CANCELLED c10R
    rfl rfl
